import Mathlib

/-!
Verification of the alerting and live-session core of the tg_system_bot
repository (src/modules/monitoring.py, src/modules/system_monitor.py,
src/bot.py), as a shallow embedding in Lean 4.

Modelling conventions:
* Python floats (metric percentages, temperatures, thresholds) are embedded
  as rationals `ℚ`; every comparison in the source is an exact comparison,
  so no rounding semantics are lost.
* Python sets of strings (`last_alerts["disk"]`, `last_alerts["service"]`,
  `overheated_now`) are embedded as duplicate-free `List String` values with
  membership, add and discard operations.
* Sending a Telegram message is the observable output of the monitoring
  loops; each `bot.send_message` call becomes one `MonEvent` value, carrying
  the data that distinguishes the message (component name / metric value).
  Message delivery itself is best-effort in the source (failures are caught
  and logged around the send) and is modelled as always succeeding.
-/

namespace TgSystemBot

/-- One observable alert notification of the monitoring loops: each
constructor corresponds to one `bot.send_message` site in
`src/modules/monitoring.py`. -/
inductive MonEvent where
  | cpuRaise (v : ℚ)
  | ramRaise (v : ℚ)
  | diskRaise (mount : String)
  | serviceDown (name : String)
  | containerDown (name : String)
  | containerMissing (name : String)
  | tempRaise (name : String) (v : ℚ)
  | tempClear (name : String) (v : ℚ)
  deriving DecidableEq, Repr

/-- Python `set.add` on a set embedded as a list: insert the name when
absent, otherwise leave the set unchanged. -/
def addName (s : List String) (name : String) : List String :=
  if name ∈ s then s else name :: s

/-- Python `set.discard` on a set embedded as a list: remove every
occurrence of the name (a no-op when absent). -/
def discardName (s : List String) (name : String) : List String :=
  s.filter (fun x => x ≠ name)

/-- Does the character list `hay` start with `needle`? (helper for the
Python `in` substring tests of the source). -/
def charsStart : List Char → List Char → Bool
  | [], _ => true
  | _ :: _, [] => false
  | a :: as, b :: bs => a = b && charsStart as bs

/-- Does `needle` occur as a contiguous substring of `hay`? (Python
`needle in hay` on strings). -/
def charsInfix (needle : List Char) : List Char → Bool
  | [] => needle.isEmpty
  | b :: bs => charsStart needle (b :: bs) || charsInfix needle bs

/-- Python substring membership `needle in hay` for `String`. -/
def strContains (hay needle : String) : Bool :=
  charsInfix needle.toList hay.toList

/-- CPU alert step of `background_monitoring`
(src/modules/monitoring.py lines 44-63): breach when
`status.cpu.percent > ALERT_CPU_THRESHOLD`; a RAISE message is sent only
when the `last_alerts["cpu"]` flag is not yet set; on any non-breaching
reading the flag is reset immediately — there is no hysteresis and no
CLEAR message on this path. -/
def cpuStep (cpuT v : ℚ) (alerting : Bool) : Bool × List MonEvent :=
  if v > cpuT then
    if alerting = false then (true, [.cpuRaise v]) else (alerting, [])
  else (false, [])

/-- RAM alert step of `background_monitoring`
(src/modules/monitoring.py lines 66-74); identical shape to the CPU step. -/
def ramStep (ramT v : ℚ) (alerting : Bool) : Bool × List MonEvent :=
  if v > ramT then
    if alerting = false then (true, [.ramRaise v]) else (alerting, [])
  else (false, [])

/-- Feed a sequence of CPU readings through `cpuStep`, one monitoring cycle
per reading, collecting the emitted events in order. -/
def cpuRun (cpuT : ℚ) (vs : List ℚ) (alerting : Bool) : Bool × List MonEvent :=
  match vs with
  | [] => (alerting, [])
  | v :: rest =>
    let r := cpuStep cpuT v alerting
    let r2 := cpuRun cpuT rest r.1
    (r2.1, r.2 ++ r2.2)

/-- Temperature alert step of `background_temperature_alerts` for one
component (src/modules/monitoring.py lines 160-195): breach when
`temp_c >= ALERT_TEMP_THRESHOLD` (note the non-strict comparison); a RAISE
is sent only when the component is not yet in `overheated_now`; on a
non-breaching reading the alert is cleared (discard + CLEAR message) only
when the component is in `overheated_now` and
`temp_c <= ALERT_TEMP_THRESHOLD - TEMP_ALERT_HYSTERESIS`; otherwise
nothing happens. -/
def tempEvalOne (tempT hyst : ℚ) (name : String) (v : ℚ)
    (overheated : List String) : List String × List MonEvent :=
  if v ≥ tempT then
    if name ∈ overheated then (overheated, [])
    else (addName overheated name, [.tempRaise name v])
  else
    if name ∈ overheated ∧ v ≤ tempT - hyst then
      (discardName overheated name, [.tempClear name v])
    else (overheated, [])

/-- Feed a sequence of temperature readings of one component through
`tempEvalOne`, one monitoring cycle per reading, collecting the emitted
events in order. -/
def tempRunOne (tempT hyst : ℚ) (name : String) (vs : List ℚ)
    (overheated : List String) : List String × List MonEvent :=
  match vs with
  | [] => (overheated, [])
  | v :: rest =>
    let r := tempEvalOne tempT hyst name v overheated
    let r2 := tempRunOne tempT hyst name rest r.1
    (r2.1, r.2 ++ r2.2)

/-- Result of `gather_system_status` (src/modules/system_monitor.py
lines 309-319), restricted to the fields `background_monitoring` reads:
CPU percent, memory percent and per-mount disk used-percent. -/
structure StatusM where
  cpuPercent : ℚ
  ramPercent : ℚ
  disks : List (String × ℚ)
  deriving DecidableEq, Repr

/-- Result of `get_docker_info` (src/modules/system_monitor.py
lines 257-294), restricted to the fields `background_monitoring` reads:
the container count and the (name, status) pairs. `get_docker_info`
catches every internal failure and returns `DockerInfo(0, 0, [])`, so a
failed docker listing is represented by `⟨0, []⟩`, never by an
exception. -/
structure DockerInfoM where
  containersTotal : Nat
  containers : List (String × String)
  deriving DecidableEq, Repr

/-- The `last_alerts` dictionary of `background_monitoring`
(src/modules/monitoring.py line 37): a CPU flag, a RAM flag, a set of
disk mounts, and one shared set `last_alerts["service"]` used by both the
systemd-service checks and the docker-container checks. -/
structure LastAlerts where
  cpu : Bool
  ram : Bool
  disk : List String
  service : List String
  deriving DecidableEq, Repr

/-- Inputs of one cycle of `background_monitoring`. `status = none` models
`gather_system_status()` raising (its psutil calls can fail): the
exception is caught by the cycle-wide `try`/`except`, aborting the rest
of the cycle body. `serviceReads name` is the `(rc, stdout)` pair of
`run_command("systemctl is-active name")`, which never raises
(cf. `run_command`). -/
structure CycleInput where
  status : Option StatusM
  serviceReads : String → Int × String
  docker : DockerInfoM

/-- Disk step of `background_monitoring` for one mount
(src/modules/monitoring.py lines 77-88): breach when
`100 - d.percent < ALERT_DISK_THRESHOLD`; a message is sent only when the
mount is not yet in `last_alerts["disk"]`; on recovery the mount is
discarded silently. -/
def diskStepOne (diskT : ℚ) (mount : String) (percent : ℚ)
    (s : List String) : List String × List MonEvent :=
  if 100 - percent < diskT then
    if mount ∈ s then (s, []) else (addName s mount, [.diskRaise mount])
  else (discardName s mount, [])

/-- Fold `diskStepOne` over `status.disks` in order. -/
def diskFold (diskT : ℚ) (disks : List (String × ℚ))
    (s : List String) : List String × List MonEvent :=
  match disks with
  | [] => (s, [])
  | d :: rest =>
    let r := diskStepOne diskT d.1 d.2 s
    let r2 := diskFold diskT rest r.1
    (r2.1, r.2 ++ r2.2)

/-- The breach test of the service check
(src/modules/monitoring.py line 93):
`rc != 0 or "inactive" in out or "failed" in out`. -/
def serviceBreachedB (rc : Int) (out : String) : Bool :=
  rc ≠ 0 || strContains out "inactive" || strContains out "failed"

/-- Service step of `background_monitoring` for one service
(src/modules/monitoring.py lines 91-101): on a breached probe a message
is sent only when the name is not yet in `last_alerts["service"]`; on a
healthy probe the name is discarded from that set silently. -/
def serviceStepOne (read : Int × String) (svc : String)
    (s : List String) : List String × List MonEvent :=
  if serviceBreachedB read.1 read.2 then
    if svc ∈ s then (s, []) else (addName s svc, [.serviceDown svc])
  else (discardName s svc, [])

/-- Fold `serviceStepOne` over the configured service list in order. -/
def serviceFold (reads : String → Int × String) (svcs : List String)
    (s : List String) : List String × List MonEvent :=
  match svcs with
  | [] => (s, [])
  | svc :: rest =>
    let r := serviceStepOne (reads svc) svc s
    let r2 := serviceFold reads rest r.1
    (r2.1, r.2 ++ r2.2)

/-- Container step of `background_monitoring` for one tracked name
(src/modules/monitoring.py lines 106-127): the inner `for`/`break` loop
is a first-match search over `docker_info.containers`; a found container
whose status does not contain `"Up"` is a breach (message only when the
name is not yet in `last_alerts["service"]`); a found running container
discards the name from that shared set; a name not found at all is a
breach with its own "not found" message, again suppressed by the same
set. -/
def containerStepOne (docker : DockerInfoM) (name : String)
    (s : List String) : List String × List MonEvent :=
  match docker.containers.find? (fun c => c.1 == name) with
  | some c =>
    if strContains c.2 "Up" = false then
      if name ∈ s then (s, []) else (addName s name, [.containerDown name])
    else (discardName s name, [])
  | none =>
    if name ∈ s then (s, []) else (addName s name, [.containerMissing name])

/-- The docker block of `background_monitoring`
(src/modules/monitoring.py lines 105-127): the whole loop over
`ALERT_DOCKER_CONTAINERS` is guarded by
`if docker_info.containers_total > 0`. -/
def containerFold (docker : DockerInfoM) (names : List String)
    (s : List String) : List String × List MonEvent :=
  if docker.containersTotal > 0 then containerFoldGo docker names s
  else (s, [])
where
  containerFoldGo (docker : DockerInfoM) :
      List String → List String → List String × List MonEvent
  | [], s => (s, [])
  | name :: rest, s =>
    let r := containerStepOne docker name s
    let r2 := containerFoldGo docker rest r.1
    (r2.1, r.2 ++ r2.2)

/-- One iteration of the `while True` body of `background_monitoring`
(src/modules/monitoring.py lines 39-132). The single `try`/`except`
around the whole body means a raising `gather_system_status()` skips
every component of the cycle; otherwise the CPU, RAM, disk, service and
docker blocks run in order, each mutating its part of `last_alerts`. -/
def cycle (cpuT ramT diskT : ℚ) (services containerNames : List String)
    (inp : CycleInput) (st : LastAlerts) : LastAlerts × List MonEvent :=
  match inp.status with
  | none => (st, [])
  | some status =>
    let c := cpuStep cpuT status.cpuPercent st.cpu
    let r := ramStep ramT status.ramPercent st.ram
    let d := diskFold diskT status.disks st.disk
    let sv := serviceFold inp.serviceReads services st.service
    let co := containerFold inp.docker containerNames sv.1
    (⟨c.1, r.1, d.1, co.1⟩, c.2 ++ r.2 ++ d.2 ++ sv.2 ++ co.2)

/-- Behaviour of the subprocess spawned by `run_command`
(src/modules/system_monitor.py lines 325-345): either the spawn itself
fails (`create_subprocess_shell` raises), or `proc.communicate()` returns
within the timeout with an exit code and captured output, or it exceeds
the timeout. -/
inductive ProcBehavior where
  | spawnFails (msg : String)
  | completes (rc : Int) (outS errS : String)
  | timesOut
  deriving DecidableEq, Repr

/-- The value `run_command` returns: `(returncode, stdout, stderr)`
together with whether `proc.kill()` was invoked on the subprocess. -/
structure RunResult where
  rc : Int
  outS : String
  errS : String
  killed : Bool
  deriving DecidableEq, Repr

/-- `run_command` (src/modules/system_monitor.py lines 325-345) as a
function of the subprocess behaviour. A completed process — whatever its
exit code — yields a normal `(rc, stdout, stderr)` result; only the
`asyncio.TimeoutError` branch is caught, killing the process and
returning the synthetic result `(124, "", "Command timed out after
{timeout}s")`; a spawn failure propagates as the only exception
(`Except.error`). -/
def run_command (behavior : ProcBehavior) (timeout : Nat) :
    Except String RunResult :=
  match behavior with
  | .spawnFails msg => .error msg
  | .completes rc outS errS => .ok ⟨rc, outS, errS, false⟩
  | .timesOut =>
    .ok ⟨124, "", "Command timed out after " ++ toString timeout ++ "s", true⟩

/-- Association-list lookup for the live-session registries
(`live_temp_sessions` / `live_temp_message_ids` are Python dicts keyed by
chat id). -/
def lookupA (m : List (Int × Nat)) (k : Int) : Option Nat :=
  match m with
  | [] => none
  | p :: rest => if p.1 = k then some p.2 else lookupA rest k

/-- Python `dict.pop(k, None)`: drop every binding of `k`. -/
def eraseA : List (Int × Nat) → Int → List (Int × Nat)
  | [], _ => []
  | p :: rest, k => if p.1 = k then eraseA rest k else p :: eraseA rest k

/-- Python `dict[k] = v`: replace any binding of `k` by the new one. -/
def insertA (m : List (Int × Nat)) (k : Int) (v : Nat) : List (Int × Nat) :=
  eraseA m k ++ [(k, v)]

/-- Number of bindings of key `k` (for "exactly one registered session"). -/
def countKey : List (Int × Nat) → Int → Nat
  | [], _ => 0
  | p :: rest, k => (if p.1 = k then 1 else 0) + countKey rest k

/-- State touched by the live-temperature session handlers of src/bot.py:
the two module-level dicts `live_temp_sessions` (chat id ↦ task) and
`live_temp_message_ids` (chat id ↦ message id) (src/bot.py lines 36-38),
plus instrumentation of the ambient effects — fresh task/message
identifiers and counters of `asyncio.create_task` calls and of messages
created via `callback.message.answer`. -/
structure LiveState where
  sessions : List (Int × Nat)
  messageIds : List (Int × Nat)
  nextTaskId : Nat
  nextMessageId : Nat
  tasksLaunched : Nat
  messagesCreated : Nat
  deriving DecidableEq, Repr

/-- Outcome of a start request: `alreadyActive` models the early-return
branch answering "Live уже активен"; `started` models the fresh-session
branch. -/
inductive StartOutcome where
  | alreadyActive
  | started
  deriving DecidableEq, Repr

/-- The fresh-start tail of `cb_show_temperature_live`
(src/bot.py lines 562-571): send one new message, record its id in
`live_temp_message_ids`, create one task via `asyncio.create_task`, and
register it in `live_temp_sessions`. -/
def liveStartFresh (chat : Int) (s : LiveState) : LiveState × StartOutcome :=
  let msgId := s.nextMessageId
  let s1 : LiveState :=
    { s with messageIds := insertA s.messageIds chat msgId,
             nextMessageId := s.nextMessageId + 1,
             messagesCreated := s.messagesCreated + 1 }
  let taskId := s1.nextTaskId
  let s2 : LiveState :=
    { s1 with sessions := insertA s1.sessions chat taskId,
              nextTaskId := s1.nextTaskId + 1,
              tasksLaunched := s1.tasksLaunched + 1 }
  (s2, .started)

/-- `cb_show_temperature_live` (src/bot.py lines 538-571) as a state
transformer. `done` is the ambient `Task.done()` predicate on task
ids at the moment of the call. When an existing non-done task is
registered for the chat, the handler only edits the existing message
(`bot.edit_message_text` with the id from `live_temp_message_ids`) and
returns early: no new message, no new task, no registry change. A
registered but done task has both its registry entries popped before a
fresh start. -/
def liveStart (done : Nat → Bool) (chat : Int) (s : LiveState) :
    LiveState × StartOutcome :=
  match lookupA s.sessions chat with
  | some t =>
    if done t then
      liveStartFresh chat
        { s with sessions := eraseA s.sessions chat,
                 messageIds := eraseA s.messageIds chat }
    else (s, .alreadyActive)
  | none => liveStartFresh chat s

/-- The `finally` block of `update_temperature_live`
(src/bot.py lines 810-817): look up the currently-registered task of the chat,
`cur` and pop both registry entries only under the guard
`cur and cur.done()`. `done` is the ambient `Task.done()` predicate
at the moment the `finally` block runs; for the terminating task itself
`done` is `false` there, because an asyncio task is not done while its
own coroutine (including its `finally` clause) is still executing. -/
def liveCleanup (done : Nat → Bool) (chat : Int) (s : LiveState) : LiveState :=
  match lookupA s.sessions chat with
  | some cur =>
    if done cur then
      { s with sessions := eraseA s.sessions chat,
               messageIds := eraseA s.messageIds chat }
    else s
  | none => s

/-! ### Helper lemmas -/

/-- Once a component is in `overheated_now`, any run of breaching readings
(`temp_c >= ALERT_TEMP_THRESHOLD`) is absorbed: no event, no state change. -/
lemma tempRunOne_absorbs (tempT hyst : ℚ) (name : String) (vs : List ℚ) :
    ∀ over : List String, name ∈ over → (∀ v ∈ vs, tempT ≤ v) →
      tempRunOne tempT hyst name vs over = (over, []) := by
  induction vs with
  | nil => intro over _ _; rfl
  | cons v rest ih =>
    intro over hmem hall
    have hstep : tempEvalOne tempT hyst name v over = (over, []) := by
      unfold tempEvalOne
      rw [if_pos (show v ≥ tempT from hall v (List.mem_cons_self v rest)),
        if_pos hmem]
    have hrest := ih over hmem (fun u hu => hall u (List.mem_cons_of_mem v hu))
    simp [tempRunOne, hstep, hrest]

/-- Once `last_alerts["cpu"]` is set, any run of breaching readings
(`percent > ALERT_CPU_THRESHOLD`) is absorbed: no event, no state change. -/
lemma cpuRun_absorbs (cpuT : ℚ) (vs : List ℚ) :
    (∀ v ∈ vs, cpuT < v) → cpuRun cpuT vs true = (true, []) := by
  induction vs with
  | nil => intro _; rfl
  | cons v rest ih =>
    intro hall
    have hstep : cpuStep cpuT v true = (true, []) := by
      unfold cpuStep
      rw [if_pos (show v > cpuT from hall v (List.mem_cons_self v rest))]
      simp
    have hrest := ih (fun u hu => hall u (List.mem_cons_of_mem v hu))
    simp [cpuRun, hstep, hrest]

/-- The docker block is skipped entirely when the listing reports zero
containers. -/
lemma containerFold_zero (cs : List (String × String)) (names : List String)
    (s : List String) : containerFold ⟨0, cs⟩ names s = (s, []) := by
  simp [containerFold]

/-- Whatever the listing says, a name already in the shared
`last_alerts["service"]` set produces no container event. -/
lemma containerStepOne_suppressed (docker : DockerInfoM) (name : String)
    (s : List String) (h : name ∈ s) : (containerStepOne docker name s).2 = [] := by
  cases hfind : docker.containers.find? (fun c => c.1 == name) with
  | none => simp [containerStepOne, hfind, h]
  | some c =>
    cases hup : strContains c.2 "Up" with
    | false => simp [containerStepOne, hfind, hup, h]
    | true => simp [containerStepOne, hfind, hup]

/-- Whatever the probe says, a name already in the shared
`last_alerts["service"]` set produces no service event. -/
lemma serviceStepOne_suppressed (read : Int × String) (name : String)
    (s : List String) (h : name ∈ s) : (serviceStepOne read name s).2 = [] := by
  cases hb : serviceBreachedB read.1 read.2 with
  | true => simp [serviceStepOne, hb, h]
  | false => simp [serviceStepOne, hb]

/-- Looking up `k` skips the bindings erased by `eraseA`. -/
lemma lookupA_eraseA_append (k : Int) :
    ∀ m l : List (Int × Nat), lookupA (eraseA m k ++ l) k = lookupA l k := by
  intro m
  induction m with
  | nil => intro l; rfl
  | cons p rest ih =>
    intro l
    by_cases hp : p.1 = k
    · simp [eraseA, hp, ih]
    · simp [eraseA, lookupA, hp, ih]

/-- `dict[k] = v` makes `k` resolve to `v`. -/
lemma lookupA_insertA (m : List (Int × Nat)) (k : Int) (v : Nat) :
    lookupA (insertA m k v) k = some v := by
  rw [insertA, lookupA_eraseA_append]
  simp [lookupA]

/-- `eraseA` leaves no binding of the erased key. -/
lemma countKey_eraseA (k : Int) :
    ∀ m : List (Int × Nat), countKey (eraseA m k) k = 0 := by
  intro m
  induction m with
  | nil => rfl
  | cons p rest ih =>
    by_cases hp : p.1 = k
    · simp [eraseA, hp, ih]
    · simp [eraseA, countKey, hp, ih]

/-- `countKey` distributes over list append. -/
lemma countKey_append (k : Int) :
    ∀ m l : List (Int × Nat), countKey (m ++ l) k = countKey m k + countKey l k := by
  intro m
  induction m with
  | nil => intro l; simp [countKey]
  | cons p rest ih =>
    intro l
    simp [countKey, ih]
    omega

/-- After `dict[k] = v` there is exactly one binding of `k`. -/
lemma countKey_insertA (m : List (Int × Nat)) (k : Int) (v : Nat) :
    countKey (insertA m k v) k = 1 := by
  rw [insertA, countKey_append, countKey_eraseA]
  simp [countKey]

/-! ### Claims about the alert debouncing state machines -/

/-- Claim C1: for the hysteresis-equipped numeric components (the
temperature components are the only ones with a hysteresis margin), if the
component is currently alerting and a reading has not recovered past the
hysteresis margin (`value > raise_threshold - hysteresis`), then no CLEAR
event is emitted and the alerting state (membership in `overheated_now`)
is unchanged; in particular a reading exactly equal to the raise threshold
never clears the alert. -/
theorem C1_no_clear_within_hysteresis_margin (tempT hyst v : ℚ) (name : String)
    (over : List String) (hH : 0 < hyst) (hmem : name ∈ over)
    (hv : tempT - hyst < v) :
    tempEvalOne tempT hyst name v over = (over, []) ∧
    tempEvalOne tempT hyst name tempT over = (over, []) := by
  have key : ∀ w : ℚ, tempT - hyst < w →
      tempEvalOne tempT hyst name w over = (over, []) := by
    intro w hw
    unfold tempEvalOne
    by_cases hge : w ≥ tempT
    · rw [if_pos hge, if_pos hmem]
    · rw [if_neg hge, if_neg]
      rintro ⟨-, hle⟩
      linarith
  exact ⟨key v hv, key tempT (by linarith)⟩

/-- Witness for C1 at threshold 50 °C, hysteresis 3 °C, alerting component
`zone0`, reading 49 °C (inside the margin). -/
theorem C1_no_clear_within_hysteresis_margin_witness :
    (0 : ℚ) < 3 ∧ "zone0" ∈ ["zone0"] ∧ (50 : ℚ) - 3 < 49 ∧
    (tempEvalOne 50 3 "zone0" 49 ["zone0"] = (["zone0"], []) ∧
      tempEvalOne 50 3 "zone0" 50 ["zone0"] = (["zone0"], [])) :=
  ⟨by norm_num, by decide, by norm_num,
    C1_no_clear_within_hysteresis_margin 50 3 49 "zone0" ["zone0"]
      (by norm_num) (by decide) (by norm_num)⟩

/-- Claim C2: at most one RAISE per breach episode — once the alerting
state is set (`overheated_now` membership for temperature, the
`last_alerts["cpu"]` flag for CPU), an arbitrary sequence of further
breaching readings produces zero events and leaves the state unchanged. -/
theorem C2_at_most_one_raise_per_episode (tempT hyst cpuT : ℚ) (name : String)
    (vs cvs : List ℚ) (over : List String)
    (hmem : name ∈ over) (hall : ∀ v ∈ vs, tempT ≤ v)
    (hcall : ∀ v ∈ cvs, cpuT < v) :
    tempRunOne tempT hyst name vs over = (over, []) ∧
    cpuRun cpuT cvs true = (true, []) :=
  ⟨tempRunOne_absorbs tempT hyst name vs over hmem hall,
    cpuRun_absorbs cpuT cvs hcall⟩

/-- Witness for C2: alerting temperature component `zone0` absorbing the
breaching readings 60, 55 (threshold 50), and the alerting CPU flag
absorbing 95, 99 (threshold 90). -/
theorem C2_at_most_one_raise_per_episode_witness :
    "zone0" ∈ ["zone0"] ∧ (∀ v ∈ ([60, 55] : List ℚ), (50 : ℚ) ≤ v) ∧
    (∀ v ∈ ([95, 99] : List ℚ), (90 : ℚ) < v) ∧
    (tempRunOne 50 3 "zone0" [60, 55] ["zone0"] = (["zone0"], []) ∧
      cpuRun 90 [95, 99] true = (true, [])) :=
  ⟨by decide, by norm_num, by norm_num,
    C2_at_most_one_raise_per_episode 50 3 90 "zone0" [60, 55] [95, 99] ["zone0"]
      (by decide) (by norm_num) (by norm_num)⟩

/-- Claim C5 is false on the code: the CPU path of `background_monitoring`
has no hysteresis and sends no CLEAR message at all, so with threshold 90
the reading sequence 95, 92, 88, 79, 96 from the non-alerting state
produces exactly two events — RAISE(95) and RAISE(96) — not the claimed
three-event sequence RAISE(95), CLEAR(79), RAISE(96) (the alert flag is
reset silently at the reading 88, the first one at or below the
threshold). -/
theorem C5_cpu_sequence_counterexample :
    cpuRun 90 [95, 92, 88, 79, 96] false =
      (true, [.cpuRaise 95, .cpuRaise 96]) ∧
    (cpuRun 90 [95, 92, 88, 79, 96] false).2.length = 2 ∧
    ∀ e ∈ (cpuRun 90 [95, 92, 88, 79, 96] false).2, ∃ v, e = MonEvent.cpuRaise v := by
  refine ⟨?_, ?_, ?_⟩ <;> norm_num [cpuRun, cpuStep]

/-- Claim C5, amended: on the CPU path (threshold 90, no hysteresis, no
CLEAR messages) the readings 95, 92, 88, 79, 96 produce exactly
[RAISE(95), RAISE(96)]; the claimed sequence
[RAISE(95), CLEAR(79), RAISE(96)] is what the hysteresis debouncer of the
temperature path produces with threshold 90 and hysteresis 10 on the same
readings. -/
theorem C5_sequence_amended :
    cpuRun 90 [95, 92, 88, 79, 96] false =
      (true, [.cpuRaise 95, .cpuRaise 96]) ∧
    tempRunOne 90 10 "cpu" [95, 92, 88, 79, 96] [] =
      (["cpu"], [.tempRaise "cpu" 95, .tempClear "cpu" 79, .tempRaise "cpu" 96]) := by
  constructor
  · norm_num [cpuRun, cpuStep]
  · norm_num [tempRunOne, tempEvalOne, addName, discardName]

/-- Claim C6 is false on the code as a statement about every numeric
"above" component: the temperature path breaches on `temp_c >=
ALERT_TEMP_THRESHOLD`, so a reading exactly equal to the raise threshold
(here 50 = 50) DOES raise from the non-alerting state. -/
theorem C6_equality_breach_counterexample :
    tempEvalOne 50 3 "zone0" 50 [] = (["zone0"], [.tempRaise "zone0" 50]) := by
  norm_num [tempEvalOne, addName]

/-- Claim C6, amended: the CPU and RAM paths compare strictly
(`percent > threshold`), so a reading exactly equal to the threshold is
not a breach there — no RAISE and the flag stays false; the temperature
path compares non-strictly (`temp_c >= threshold`), so a reading exactly
equal to the threshold is a breach there and raises from the non-alerting
state. -/
theorem C6_equality_not_breach_amended (tempT hyst : ℚ) (name : String) :
    cpuStep tempT tempT false = (false, []) ∧
    ramStep tempT tempT false = (false, []) ∧
    tempEvalOne tempT hyst name tempT [] = ([name], [.tempRaise name tempT]) := by
  refine ⟨?_, ?_, ?_⟩
  · simp [cpuStep]
  · simp [ramStep]
  · simp [tempEvalOne, addName]

/-! ### Claims about one monitoring cycle -/

/-- Claim C7 is false on the code: the single `try`/`except` around the
whole cycle body means a failed `gather_system_status()` read aborts the
entire cycle, not just one component. At this input the status read fails
while the tracked service `nginx` has a breaching probe (`rc = 1`): the
cycle leaves every alerting state untouched and emits nothing, although
evaluating `nginx` on its own would have raised `serviceDown` — so the
other components are NOT still evaluated. -/
theorem C7_skip_only_failed_component_counterexample :
    cycle 90 90 10 ["nginx"] [] ⟨none, fun _ => (1, ""), ⟨0, []⟩⟩
        ⟨false, false, [], []⟩ =
      (⟨false, false, [], []⟩, []) ∧
    serviceStepOne (1, "") "nginx" [] = (["nginx"], [.serviceDown "nginx"]) :=
  ⟨rfl, rfl⟩

/-- Claim C7, amended: per-cycle failures are caught at the cycle
boundary, not per component. A raising `gather_system_status()` skips the
whole cycle with no alerting state mutated and no component evaluated; a
failed docker listing (represented by the catch-all result of `get_docker_info`,
namely `DockerInfo(0, 0, [])`) skips only the container checks while the
service components of the same cycle are still evaluated. -/
theorem C7_cycle_boundary_amended (cpuT ramT diskT : ℚ)
    (svcs names : List String) (reads : String → Int × String)
    (st : LastAlerts) (status : StatusM) (d : DockerInfoM)
    (cs : List (String × String)) (s : List String) :
    cycle cpuT ramT diskT svcs names ⟨none, reads, d⟩ st = (st, []) ∧
    containerFold ⟨0, cs⟩ names s = (s, []) ∧
    (cycle cpuT ramT diskT svcs names ⟨some status, reads, ⟨0, cs⟩⟩ st).1.service =
      (serviceFold reads svcs st.service).1 := by
  refine ⟨rfl, containerFold_zero cs names s, ?_⟩
  simp [cycle, containerFold_zero]

/-- Claim C9 is false on the code as stated: the whole docker block is
guarded by `if docker_info.containers_total > 0`, so when the listing is
empty (e.g. docker absent or the listing command failed) a tracked
container that is certainly not found produces NO RAISE at all, although
the per-container evaluation of the missing name would have raised. -/
theorem C9_missing_container_counterexample :
    containerFold ⟨0, []⟩ ["web"] [] = ([], []) ∧
    containerStepOne ⟨0, []⟩ "web" [] = (["web"], [.containerMissing "web"]) :=
  ⟨rfl, rfl⟩

/-- Claim C9, amended: provided the container listing is non-empty
(`containers_total > 0`), a tracked container missing from the listing
raises `containerMissing` exactly once (first missing cycle raises and
records the name in the shared suppression set, later missing cycles are
silent), and a reappearance whose status contains `"Up"` discards the
name, clearing the alert. -/
theorem C9_missing_container_amended (docker docker2 : DockerInfoM)
    (name : String) (s s' s'' : List String) (c : String × String)
    (htot : 0 < docker.containersTotal)
    (hmiss : docker.containers.find? (fun c => c.1 == name) = none)
    (hnot : name ∉ s)
    (htot2 : 0 < docker2.containersTotal)
    (hfound : docker2.containers.find? (fun c => c.1 == name) = some c)
    (hup : strContains c.2 "Up" = true) :
    containerFold docker [name] s = (name :: s, [.containerMissing name]) ∧
    containerFold docker2 [name] s' = (discardName s' name, []) ∧
    containerFold docker [name] s'' =
      (if name ∈ s'' then (s'', []) else (name :: s'', [.containerMissing name])) := by
  have h1 : containerStepOne docker name s = (name :: s, [.containerMissing name]) := by
    simp [containerStepOne, hmiss, hnot, addName]
  have h2 : containerStepOne docker2 name s' = (discardName s' name, []) := by
    simp [containerStepOne, hfound, hup]
  have h3 : containerStepOne docker name s'' =
      (if name ∈ s'' then (s'', []) else (name :: s'', [.containerMissing name])) := by
    by_cases hm : name ∈ s''
    · simp [containerStepOne, hmiss, hm]
    · simp [containerStepOne, hmiss, hm, addName]
  refine ⟨?_, ?_, ?_⟩
  · simp [containerFold, htot, containerFold.containerFoldGo, h1]
  · simp [containerFold, htot2, containerFold.containerFoldGo, h2]
  · by_cases hm : name ∈ s'' <;>
      simp [containerFold, htot, containerFold.containerFoldGo, h3, hm]

/-- Witness for C9 (amended): listing `[("db", "Up 2 hours")]` with
tracked container `web` missing (raise once, then silent), and listing
`[("web", "Up 3 minutes")]` with `web` back in a running state (clear). -/
theorem C9_missing_container_amended_witness :
    0 < (⟨1, [("db", "Up 2 hours")]⟩ : DockerInfoM).containersTotal ∧
    (⟨1, [("db", "Up 2 hours")]⟩ : DockerInfoM).containers.find?
      (fun c => c.1 == "web") = none ∧
    "web" ∉ ([] : List String) ∧
    0 < (⟨1, [("web", "Up 3 minutes")]⟩ : DockerInfoM).containersTotal ∧
    (⟨1, [("web", "Up 3 minutes")]⟩ : DockerInfoM).containers.find?
      (fun c => c.1 == "web") = some ("web", "Up 3 minutes") ∧
    strContains "Up 3 minutes" "Up" = true ∧
    (containerFold ⟨1, [("db", "Up 2 hours")]⟩ ["web"] [] =
        (["web"], [.containerMissing "web"]) ∧
      containerFold ⟨1, [("web", "Up 3 minutes")]⟩ ["web"] ["web"] =
        (discardName ["web"] "web", []) ∧
      containerFold ⟨1, [("db", "Up 2 hours")]⟩ ["web"] ["web"] =
        (if "web" ∈ ["web"] then (["web"], [])
          else ("web" :: ["web"], [.containerMissing "web"]))) :=
  ⟨by decide, by decide, by decide, by decide, by decide, by decide,
    C9_missing_container_amended ⟨1, [("db", "Up 2 hours")]⟩
      ⟨1, [("web", "Up 3 minutes")]⟩ "web" [] ["web"] ["web"]
      ("web", "Up 3 minutes") (by decide) (by decide) (by decide) (by decide)
      (by decide) (by decide)⟩

/-- Claim C10: the systemd-service checks and the docker-container checks
of `background_monitoring` share the single suppression set
`last_alerts["service"]`, keyed only by name. A breaching service probe
records the name in that set; while the name is in the set neither kind
emits any event for it (in particular no container RAISE after a service
RAISE and vice versa); a healthy service probe discards the name from the
shared set, after which a missing container of the same name raises
again. -/
theorem C10_shared_suppression_set (docker dockerM : DockerInfoM)
    (rc : Int) (out name : String) (s s' : List String)
    (hmem : name ∈ s) (hnot : name ∉ s')
    (hbr : serviceBreachedB rc out = true)
    (hmiss : dockerM.containers.find? (fun c => c.1 == name) = none) :
    (containerStepOne docker name s).2 = [] ∧
    (serviceStepOne (rc, out) name s).2 = [] ∧
    serviceStepOne (rc, out) name s' = (name :: s', [.serviceDown name]) ∧
    containerStepOne dockerM name s' = (name :: s', [.containerMissing name]) ∧
    serviceStepOne (0, "active") name s = (discardName s name, []) ∧
    name ∉ discardName s name ∧
    (containerStepOne dockerM name (discardName s name)).2 =
      [.containerMissing name] := by
  have hout : name ∉ discardName s name := by
    simp [discardName, List.mem_filter]
  refine ⟨containerStepOne_suppressed docker name s hmem,
    serviceStepOne_suppressed (rc, out) name s hmem, ?_, ?_, ?_, hout, ?_⟩
  · simp [serviceStepOne, hbr, hnot, addName]
  · simp [containerStepOne, hmiss, hnot, addName]
  · have hhealthy : serviceBreachedB 0 "active" = false := rfl
    simp [serviceStepOne, hhealthy]
  · simp [containerStepOne, hmiss, hout, addName]

/-- Witness for C10 at the shared set `["web"]`: the name `web` raised by
the service check suppresses the container check and vice versa, and a
healthy service probe unlocks a later `containerMissing` raise. -/
theorem C10_shared_suppression_set_witness :
    "web" ∈ ["web"] ∧ "web" ∉ ([] : List String) ∧
    serviceBreachedB 1 "" = true ∧
    (⟨1, []⟩ : DockerInfoM).containers.find? (fun c => c.1 == "web") = none ∧
    ((containerStepOne ⟨1, [("db", "Up 2 hours")]⟩ "web" ["web"]).2 = [] ∧
      (serviceStepOne (1, "") "web" ["web"]).2 = [] ∧
      serviceStepOne (1, "") "web" [] = (["web"], [.serviceDown "web"]) ∧
      containerStepOne ⟨1, []⟩ "web" [] = (["web"], [.containerMissing "web"]) ∧
      serviceStepOne (0, "active") "web" ["web"] =
        (discardName ["web"] "web", []) ∧
      "web" ∉ discardName ["web"] "web" ∧
      (containerStepOne ⟨1, []⟩ "web" (discardName ["web"] "web")).2 =
        [.containerMissing "web"]) :=
  ⟨by decide, by decide, by decide, by decide,
    C10_shared_suppression_set ⟨1, [("db", "Up 2 hours")]⟩ ⟨1, []⟩ 1 "" "web"
      ["web"] [] (by decide) (by decide) (by decide) (by decide)⟩

/-! ### Claim about the command runner -/

/-- Claim C8: `run_command` never raises for a command that completes with
a non-zero exit code — the code is returned as a normal `(rc, stdout,
stderr)` result — and on timeout the spawned process is killed and the
synthetic non-zero exit code 124 is returned together with the
explanatory message `"Command timed out after {timeout}s"` instead of
hanging. -/
theorem C8_run_command_never_raises (rc : Int) (outS errS : String) (t : Nat)
    (_hrc : rc ≠ 0) :
    run_command (.completes rc outS errS) t = .ok ⟨rc, outS, errS, false⟩ ∧
    run_command .timesOut t =
      .ok ⟨124, "", "Command timed out after " ++ toString t ++ "s", true⟩ ∧
    (124 : Int) ≠ 0 :=
  ⟨rfl, rfl, by decide⟩

/-- Witness for C8 at exit code 7 and timeout 5 s. -/
theorem C8_run_command_never_raises_witness :
    (7 : Int) ≠ 0 ∧
    (run_command (.completes 7 "out" "err") 5 = .ok ⟨7, "out", "err", false⟩ ∧
      run_command .timesOut 5 =
        .ok ⟨124, "", "Command timed out after 5s", true⟩ ∧
      (124 : Int) ≠ 0) :=
  ⟨by decide, C8_run_command_never_raises 7 "out" "err" 5 (by decide)⟩

/-! ### Claims about the live-session manager -/

/-- A start request for a chat with no registered session takes the
fresh-start branch. -/
lemma liveStart_of_lookup_none (done : Nat → Bool) (chat : Int) (s : LiveState)
    (h : lookupA s.sessions chat = none) :
    liveStart done chat s = liveStartFresh chat s := by
  unfold liveStart
  rw [h]

/-- A start request for a chat whose registered task is not done only
refreshes: it returns `alreadyActive` and changes nothing. -/
lemma liveStart_of_active (done : Nat → Bool) (chat : Int) (s : LiveState)
    (t : Nat) (h : lookupA s.sessions chat = some t) (hd : done t = false) :
    liveStart done chat s = (s, .alreadyActive) := by
  unfold liveStart
  rw [h]
  simp [hd]

/-- Claim C3: at most one non-terminated live session per subscriber — a
start request finding an active (non-done) registered task refreshes in
place and reports `alreadyActive`, changing no state; and two consecutive
start requests from a session-free state register exactly one session
(and exactly one message-id binding), create exactly one message, and
launch exactly one task. -/
theorem C3_at_most_one_live_session (done : Nat → Bool) (chat : Int)
    (s s₀ : LiveState) (t : Nat)
    (h1 : lookupA s.sessions chat = some t) (h2 : done t = false)
    (h3 : lookupA s₀.sessions chat = none) (h4 : done s₀.nextTaskId = false) :
    liveStart done chat s = (s, .alreadyActive) ∧
    (liveStart done chat (liveStart done chat s₀).1).1 =
      (liveStart done chat s₀).1 ∧
    (liveStart done chat (liveStart done chat s₀).1).2 = .alreadyActive ∧
    countKey (liveStart done chat (liveStart done chat s₀).1).1.sessions chat = 1 ∧
    countKey (liveStart done chat (liveStart done chat s₀).1).1.messageIds chat = 1 ∧
    (liveStart done chat (liveStart done chat s₀).1).1.messagesCreated =
      s₀.messagesCreated + 1 ∧
    (liveStart done chat (liveStart done chat s₀).1).1.tasksLaunched =
      s₀.tasksLaunched + 1 := by
  have ha := liveStart_of_active done chat s t h1 h2
  have hr1 := liveStart_of_lookup_none done chat s₀ h3
  have hlook : lookupA (liveStartFresh chat s₀).1.sessions chat =
      some s₀.nextTaskId :=
    lookupA_insertA s₀.sessions chat s₀.nextTaskId
  have hb := liveStart_of_active done chat (liveStartFresh chat s₀).1
    s₀.nextTaskId hlook h4
  refine ⟨ha, ?_, ?_, ?_, ?_, ?_, ?_⟩
  · rw [hr1, hb]
  · rw [hr1, hb]
  · rw [hr1, hb]
    exact countKey_insertA s₀.sessions chat s₀.nextTaskId
  · rw [hr1, hb]
    exact countKey_insertA s₀.messageIds chat s₀.nextMessageId
  · rw [hr1, hb]
    rfl
  · rw [hr1, hb]
    rfl

/-- Witness for C3: chat 1 with an active task 5 (refresh case), and a
session-free state (double-start case) under an environment in which no
task is done. -/
theorem C3_at_most_one_live_session_witness :
    lookupA [((1 : Int), 5)] 1 = some 5 ∧ (fun _ : Nat => false) 5 = false ∧
    lookupA ([] : List (Int × Nat)) 1 = none ∧
    (fun _ : Nat => false) 0 = false ∧
    (liveStart (fun _ => false) 1 ⟨[(1, 5)], [(1, 9)], 6, 10, 1, 1⟩ =
        (⟨[(1, 5)], [(1, 9)], 6, 10, 1, 1⟩, .alreadyActive) ∧
      (liveStart (fun _ => false) 1
          (liveStart (fun _ => false) 1 ⟨[], [], 0, 0, 0, 0⟩).1).1 =
        (liveStart (fun _ => false) 1 ⟨[], [], 0, 0, 0, 0⟩).1 ∧
      (liveStart (fun _ => false) 1
          (liveStart (fun _ => false) 1 ⟨[], [], 0, 0, 0, 0⟩).1).2 =
        .alreadyActive ∧
      countKey (liveStart (fun _ => false) 1
          (liveStart (fun _ => false) 1 ⟨[], [], 0, 0, 0, 0⟩).1).1.sessions 1 = 1 ∧
      countKey (liveStart (fun _ => false) 1
          (liveStart (fun _ => false) 1 ⟨[], [], 0, 0, 0, 0⟩).1).1.messageIds 1 = 1 ∧
      (liveStart (fun _ => false) 1
          (liveStart (fun _ => false) 1 ⟨[], [], 0, 0, 0, 0⟩).1).1.messagesCreated =
        (⟨[], [], 0, 0, 0, 0⟩ : LiveState).messagesCreated + 1 ∧
      (liveStart (fun _ => false) 1
          (liveStart (fun _ => false) 1 ⟨[], [], 0, 0, 0, 0⟩).1).1.tasksLaunched =
        (⟨[], [], 0, 0, 0, 0⟩ : LiveState).tasksLaunched + 1) :=
  ⟨rfl, rfl, rfl, rfl,
    C3_at_most_one_live_session (fun _ => false) 1
      ⟨[(1, 5)], [(1, 9)], 6, 10, 1, 1⟩ ⟨[], [], 0, 0, 0, 0⟩ 5 rfl rfl rfl rfl⟩

/-- Claim C4 is right about the intent but the code does not do it: when
`update_temperature_live` exhausts its 300-update budget the coroutine
terminates and its `finally` block runs, but the cleanup guard is
`if cur and cur.done()` — and an asyncio task is never `done()` while its
own coroutine (including the `finally` clause) is still executing, so for
the still-registered terminating task the guard is always false and BOTH
registry entries survive, contradicting the comment in the code ("clean up
the session if it still points at us") and the claim. Here the chat-1
registered task 7 runs its `finally` (no task is done at that instant)
and both entries remain. -/
theorem C4_self_cleanup_never_fires :
    liveCleanup (fun _ => false) 1 ⟨[(1, 7)], [(1, 42)], 8, 43, 1, 1⟩ =
      ⟨[(1, 7)], [(1, 42)], 8, 43, 1, 1⟩ ∧
    lookupA (liveCleanup (fun _ => false) 1
      ⟨[(1, 7)], [(1, 42)], 8, 43, 1, 1⟩).sessions 1 = some 7 ∧
    lookupA (liveCleanup (fun _ => false) 1
      ⟨[(1, 7)], [(1, 42)], 8, 43, 1, 1⟩).messageIds 1 = some 42 :=
  ⟨rfl, rfl, rfl⟩

end TgSystemBot
